import Mathlib

/-!
Verification of the lapin AMQP client core against its specification.

The definitions below are a shallow embedding of the Rust sources:
  * `src/frames.rs`    — the four-lane prioritized frame queue (scheduler),
  * `src/consumer.rs`  — the consumer delivery pipeline,
  * `async/src/api.rs` — the per-channel request/response state machine.

Rust `VecDeque`s become Lean `List`s (front of the list is the front of the
deque).  Promise resolvers, cancellation handles, delegates and wakers are
identified by opaque numeric tokens; invoking one is recorded as an event so
that theorems can talk about which resolver was completed with which value.
-/

namespace Lapin

/-- Error kinds, following §7 of the specification (the `Error` enum itself
lives outside the extracted sources). -/
inductive Error
  | invalidChannel
  | invalidState
  | unexpectedAnswer
  | protocolDecode
  | protocolUnexpectedFrame
  | connectionClosed
  | channelClosed (replyCode : Nat)
  | channelsLimitReached
  | ioError
  | preconditionFailed (brokerCode : Nat)
deriving DecidableEq, Repr

/-- The five frame kinds of §3 of the specification (the concrete frame type
comes from the external `amq_protocol` codec crate; only the constructor
shape and `is_header` / `Body` discrimination matter to the scheduler). -/
inductive AMQPFrame
  | protocolHeader
  | method (channelId : Nat) (classMethod : Nat)
  | header (channelId : Nat) (classId : Nat) (bodySize : Nat)
  | body (channelId : Nat) (payload : List Nat)
  | heartbeat
deriving DecidableEq, Repr

/-- Rust `AMQPFrame::is_header` from the codec crate: true exactly on content
header frames. -/
def AMQPFrame.is_header : AMQPFrame → Bool
  | AMQPFrame.header _ _ _ => true
  | _ => false

/-- An outbound queue entry: a frame together with its optional promise
resolver (`(AMQPFrame, Option<PromiseResolver<()>>)` in the source).
Resolvers are identified by numeric tokens. -/
abbrev Entry := AMQPFrame × Option Nat

/-- Rust `ExpectedReply(Reply, Box<dyn Cancellable>)` from `src/frames.rs`.
The `Reply` payload comes from `channel.rs` (outside the extracted sources)
and is opaque to the frame queue, so it is an abstract token here, as is the
cancellation handle. -/
structure ExpectedReply where
  reply : Nat
  cancel : Nat
deriving DecidableEq, Repr

/-- A resolver completion event: resolver token together with the value it
was sworn with (`Ok(())` or `Err(error)`). -/
inductive ResolverEvent
  | ok (resolver : Nat)
  | err (resolver : Nat) (error : Error)
deriving DecidableEq, Repr

/-- A cancellation event: `cancel.cancel(error)` on an expected reply's
cancellation handle. -/
structure CancelEvent where
  cancel : Nat
  error : Error
deriving DecidableEq, Repr

/-- Rust `struct Inner` from `src/frames.rs`: the four frame lanes and the
per-channel map of expected replies (the `HashMap` is modelled as an
association list keyed by channel id). -/
structure Inner where
  publish_frames : List Entry
  retry_frames : List Entry
  frames : List Entry
  low_prio_frames : List Entry
  expected_replies : List (Nat × List ExpectedReply)
deriving DecidableEq, Repr

namespace Inner

/-- Rust `Inner::push` from `src/frames.rs`: enqueue one frame (always carrying a
resolver) into the normal lane and optionally register an expected reply for
`channel_id`. -/
def push (s : Inner) (channel_id : Nat) (frame : AMQPFrame) (resolver : Nat)
    (expected_reply : Option ExpectedReply) : Inner :=
  let s := { s with frames := s.frames ++ [(frame, some resolver)] }
  match expected_reply with
  | some reply =>
    match s.expected_replies.lookup channel_id with
    | some rs =>
      { s with expected_replies :=
          (s.expected_replies.eraseP (fun p => p.1 == channel_id)) ++
            [(channel_id, rs ++ [reply])] }
    | none =>
      { s with expected_replies := s.expected_replies ++ [(channel_id, [reply])] }
  | none => s

/-- Rust `Inner::push_frames` from `src/frames.rs`: the last frame of the batch
(`frames.pop()` in Rust pops the back of the `Vec`) carries the batch's
resolver, all earlier frames carry none; an empty batch swears the resolver
with `Ok(())` immediately.  Returns the resolver events fired synchronously
together with the new state. -/
def push_frames (s : Inner) (fs : List AMQPFrame) (resolver : Nat) :
    List ResolverEvent × Inner :=
  match fs.getLast? with
  | some last_frame =>
    ([], { s with low_prio_frames :=
        s.low_prio_frames ++ fs.dropLast.map (fun f => (f, none)) ++
          [(last_frame, some resolver)] })
  | none => ([ResolverEvent.ok resolver], s)

/-- The inner `while let` loop of `Inner::pop`: drain consecutive body
frames from the front of the low-prio lane (they move to publish-sequence);
stop at the first non-body frame, which is pushed back on the front.
Returns the drained bodies and the remaining low-prio lane. -/
def drain_publish_bodies : List Entry → List Entry × List Entry
  | [] => ([], [])
  | e :: rest =>
    match e.1 with
    | AMQPFrame.body _ _ =>
      let (moved, remaining) := drain_publish_bodies rest
      (e :: moved, remaining)
    | _ => ([], e :: rest)

/-- Rust `Inner::pop` from `src/frames.rs`: retry lane first, then
publish-sequence, then normal; only with `flow` enabled may the low-prio
lane be popped, migrating a detected publish run (header plus consecutive
bodies) into publish-sequence. -/
def pop (s : Inner) (flow : Bool) : Option Entry × Inner :=
  match s.retry_frames with
  | e :: rest => (some e, { s with retry_frames := rest })
  | [] =>
  match s.publish_frames with
  | e :: rest => (some e, { s with publish_frames := rest })
  | [] =>
  match s.frames with
  | e :: rest => (some e, { s with frames := rest })
  | [] =>
  if flow then
    match s.low_prio_frames with
    | e :: rest =>
      if (rest.head?.map (fun e2 => e2.1.is_header)).getD false then
        match rest with
        | next_frame :: rest2 =>
          let (moved, remaining) := drain_publish_bodies rest2
          (some e, { s with
            low_prio_frames := remaining,
            publish_frames := s.publish_frames ++ next_frame :: moved })
        | [] => (some e, { s with low_prio_frames := [] })
      else
        (some e, { s with low_prio_frames := rest })
    | [] => (none, s)
  else (none, s)

/-- Rust `Inner::has_pending` from `src/frames.rs`. -/
def has_pending (s : Inner) : Bool :=
  !(s.retry_frames.isEmpty && s.publish_frames.isEmpty &&
    s.frames.isEmpty && s.low_prio_frames.isEmpty)

/-- Rust `Inner::drop_pending_frames`: swear every pending resolver of one lane
with `Err(error)`, emptying the lane. -/
def drop_pending_frames (lane : List Entry) (error : Error) : List ResolverEvent :=
  lane.filterMap (fun e => e.2.map (fun r => ResolverEvent.err r error))

/-- Rust `Inner::cancel_expected_replies`: cancel each reply with `error`. -/
def cancel_expected_replies (replies : List ExpectedReply) (error : Error) :
    List CancelEvent :=
  replies.map (fun rep => { cancel := rep.cancel, error := error })

/-- Rust `Inner::drop_pending` from `src/frames.rs`: fail every pending resolver
of the four lanes, then drain the expected-replies map cancelling each reply
with `error`.  Returns the resolver events, the cancellation events and the
resulting (emptied) state. -/
def drop_pending (s : Inner) (error : Error) :
    (List ResolverEvent × List CancelEvent) × Inner :=
  let resolver_events :=
    drop_pending_frames s.retry_frames error ++
    drop_pending_frames s.publish_frames error ++
    drop_pending_frames s.frames error ++
    drop_pending_frames s.low_prio_frames error
  let cancel_events :=
    (s.expected_replies.map (fun p => cancel_expected_replies p.2 error)).flatten
  ((resolver_events, cancel_events),
   { publish_frames := [], retry_frames := [], frames := [],
     low_prio_frames := [], expected_replies := [] })

/-- Iterate `pop` a given number of times, collecting the popped entries in
order (the I/O loop's drain). -/
def drainN (s : Inner) (flow : Bool) : Nat → List (Option Entry) × Inner
  | 0 => ([], s)
  | n + 1 =>
    let (e, s') := s.pop flow
    let (es, s'') := drainN s' flow n
    (e :: es, s'')

end Inner

/-! ## Consumer delivery pipeline (`src/consumer.rs`) -/

/-- Rust `BasicProperties` comes from the external codec crate and is opaque to
the consumer pipeline; modelled as a token. -/
structure BasicProperties where
  raw : Nat := 0
deriving DecidableEq, Repr

/-- Rust `Delivery` (from `message.rs`, outside the extracted sources).
Modelled from the spec: `Delivery = {delivery_tag, exchange, routing_key,
redelivered, properties, body: bytes}` (§3), with `receive_content`
appending bytes to the body. -/
structure Delivery where
  delivery_tag : Nat
  exchange : String
  routing_key : String
  redelivered : Bool
  properties : BasicProperties
  body : List Nat
deriving DecidableEq, Repr

/-- Rust `Delivery::receive_content`: append a chunk of payload bytes to the
body buffer. -/
def Delivery.receive_content (d : Delivery) (payload : List Nat) : Delivery :=
  { d with body := d.body ++ payload }

/-- Rust `DeliveryResult = Result<Option<(Channel, Delivery)>, Error>` from
`message.rs`; the `Channel` handle is identified by its id. -/
inductive DeliveryResult
  | ok (payload : Option (Nat × Delivery))
  | err (error : Error)
deriving DecidableEq, Repr

/-- A task spawned on the executor: the delegate token together with the
`DeliveryResult` handed to `on_new_delivery` (the special marker
`dropPrefetched` records a `delegate.drop_prefetched_messages()` spawn). -/
inductive SpawnEvent
  | newDelivery (delegate : Nat) (delivery : DeliveryResult)
  | dropPrefetched (delegate : Nat)
deriving DecidableEq, Repr

/-- Rust `struct ConsumerInner` from `src/consumer.rs`.  The flume MPSC pair
`(deliveries_in, deliveries_out)` is one queue `deliveries`; the waker and
the delegate are tokens; tasks spawned on the executor are logged in
`spawned`, wakes of the stream waker in `woken`. -/
structure ConsumerInner where
  current_message : Option Delivery
  deliveries : List DeliveryResult
  task : Option Nat
  tag : String
  delegate : Option Nat
  spawned : List SpawnEvent
  woken : List Nat
deriving DecidableEq, Repr

namespace ConsumerInner

/-- Rust `ConsumerInner::new`. -/
def new (consumer_tag : String) : ConsumerInner :=
  { current_message := none, deliveries := [], task := none,
    tag := consumer_tag, delegate := none, spawned := [], woken := [] }

/-- Rust `ConsumerInner::next_delivery`: `try_recv` pops the front of the MPSC
queue if any. -/
def next_delivery (s : ConsumerInner) : Option DeliveryResult × ConsumerInner :=
  match s.deliveries with
  | [] => (none, s)
  | d :: rest => (some d, { s with deliveries := rest })

/-- The `while let Some(delivery) = inner.next_delivery()` loop of
`Consumer::set_delegate`: spawn `delegate.on_new_delivery(delivery)` for
each queued delivery, in queue order. -/
def flush_to_delegate (delegate : Nat) : List DeliveryResult → List SpawnEvent
  | [] => []
  | d :: rest => SpawnEvent.newDelivery delegate d :: flush_to_delegate delegate rest

/-- Rust `Consumer::set_delegate` from `src/consumer.rs`: drain every delivery
already queued, spawning the delegate on each, then install the delegate. -/
def set_delegate (s : ConsumerInner) (delegate : Nat) : ConsumerInner :=
  let s := { s with
    spawned := s.spawned ++ flush_to_delegate delegate s.deliveries,
    deliveries := [] }
  { s with delegate := some delegate }

/-- Rust `Consumer::start_new_delivery`. -/
def start_new_delivery (s : ConsumerInner) (delivery : Delivery) : ConsumerInner :=
  { s with current_message := some delivery }

/-- Rust `Consumer::set_delivery_properties`: update the properties of the
in-progress message, if any. -/
def set_delivery_properties (s : ConsumerInner) (properties : BasicProperties) :
    ConsumerInner :=
  match s.current_message with
  | some delivery =>
    { s with current_message := some { delivery with properties := properties } }
  | none => s

/-- Rust `Consumer::receive_delivery_content`: append a body chunk to the
in-progress message, if any. -/
def receive_delivery_content (s : ConsumerInner) (payload : List Nat) :
    ConsumerInner :=
  match s.current_message with
  | some delivery =>
    { s with current_message := some (delivery.receive_content payload) }
  | none => s

/-- Rust `ConsumerInner::new_delivery`: publish one completed delivery — spawn
the delegate if one is set, otherwise send into the MPSC queue; then wake
the registered stream waker if any. -/
def new_delivery (s : ConsumerInner) (channel : Nat) (delivery : Delivery) :
    ConsumerInner :=
  let s :=
    match s.delegate with
    | some delegate =>
      { s with spawned :=
          s.spawned ++ [SpawnEvent.newDelivery delegate (DeliveryResult.ok (some (channel, delivery)))] }
    | none =>
      { s with deliveries := s.deliveries ++ [DeliveryResult.ok (some (channel, delivery))] }
  match s.task with
  | some waker => { s with woken := s.woken ++ [waker] }
  | none => s

/-- Rust `Consumer::new_delivery_complete`: take the in-progress message whole
and publish it; do nothing when there is none. -/
def new_delivery_complete (s : ConsumerInner) (channel : Nat) : ConsumerInner :=
  match s.current_message with
  | some delivery =>
    new_delivery { s with current_message := none } channel delivery
  | none => s

end ConsumerInner

/-! ## Channel state machine (`async/src/api.rs`) -/

/-- Rust `ChannelState` from `async/src/api.rs`. -/
inductive ChannelState
  | initial
  | connected
  | closed
  | error
  | sendingContent (remaining : Nat)
  | willReceiveContent (queue : String) (tag : String)
  | receivingContent (queue : String) (tag : String) (remaining : Nat)
deriving DecidableEq, Repr

/-- Rust `RequestId = u64`. -/
abbrev RequestId := Nat

/-- Rust `Answer` from `async/src/api.rs`: one variant per synchronous request
kind, each carrying its request id and any caller-supplied context. -/
inductive Answer
  | awaitingChannelOpenOk (request_id : RequestId)
  | awaitingChannelFlowOk (request_id : RequestId)
  | awaitingChannelCloseOk (request_id : RequestId)
  | awaitingAccessRequestOk (request_id : RequestId)
  | awaitingExchangeDeclareOk (request_id : RequestId)
  | awaitingExchangeDeleteOk (request_id : RequestId)
  | awaitingExchangeBindOk (request_id : RequestId)
  | awaitingExchangeUnbindOk (request_id : RequestId)
  | awaitingQueueDeclareOk (request_id : RequestId)
  | awaitingQueueBindOk (request_id : RequestId) (exchange : String) (routing_key : String)
  | awaitingQueuePurgeOk (request_id : RequestId) (queue : String)
  | awaitingQueueDeleteOk (request_id : RequestId) (queue : String)
  | awaitingQueueUnbindOk (request_id : RequestId) (exchange : String) (routing_key : String)
  | awaitingBasicQosOk (request_id : RequestId) (prefetch_size : Nat) (prefetch_count : Nat) (global : Bool)
  | awaitingBasicConsumeOk (request_id : RequestId) (queue : String) (consumer_tag : String)
      (no_local : Bool) (no_ack : Bool) (exclusive : Bool) (nowait : Bool)
  | awaitingBasicCancelOk (request_id : RequestId)
  | awaitingBasicGetAnswer (request_id : RequestId)
  | awaitingBasicRecoverOk (request_id : RequestId)
  | awaitingTxSelectOk (request_id : RequestId)
  | awaitingTxCommitOk (request_id : RequestId)
  | awaitingTxRollbackOk (request_id : RequestId)
  | awaitingConfirmSelectOk (request_id : RequestId)
deriving DecidableEq, Repr

/-- Rust `FieldTable` from the external `amq_protocol_types` crate: an opaque
table of caller arguments. -/
structure FieldTable where
  entries : List (String × Nat) := []
deriving DecidableEq, Repr

/-- The method frames built by the operations of `async/src/api.rs`
(`Class::Channel(channel::Methods::Open{..})` etc., flattened into one
inductive; only the variants used by the embedded operations appear). -/
inductive Method
  | channelOpen (out_of_band : String)
  | channelFlow (active : Bool)
  | channelFlowOk (active : Bool)
  | channelClose (reply_code : Nat) (reply_text : String) (class_id : Nat) (method_id : Nat)
  | channelCloseOk
  | queueDeclare (ticket : Nat) (queue : String) (passive : Bool) (durable : Bool)
      (exclusive : Bool) (auto_delete : Bool) (nowait : Bool) (arguments : FieldTable)
  | queueBind (ticket : Nat) (queue : String) (exchange : String) (routing_key : String)
      (nowait : Bool) (arguments : FieldTable)
  | basicQos (prefetch_size : Nat) (prefetch_count : Nat) (global : Bool)
  | basicCancel (consumer_tag : String) (nowait : Bool)
  | basicPublish (ticket : Nat) (exchange : String) (routing_key : String)
      (mandatory : Bool) (immediate : Bool)
deriving DecidableEq, Repr

/-- Rust `Message::new(delivery_tag, exchange, routing_key, redelivered)` — the
in-progress delivery of the legacy channel model. -/
structure Message where
  delivery_tag : Nat
  exchange : String
  routing_key : String
  redelivered : Bool
deriving DecidableEq, Repr

/-- The legacy `Consumer` struct built inline by
`receive_basic_consume_ok` in `async/src/api.rs`. -/
structure LegacyConsumer where
  tag : String
  no_local : Bool
  no_ack : Bool
  exclusive : Bool
  nowait : Bool
  current_message : Option Message
  messages : List Message
deriving DecidableEq, Repr

/-- Rust `Binding::new(exchange, routing_key, nowait)` with its `active` flag
flipped on `BindOk` (§3 of the specification; `queue.rs` is outside the
extracted sources). -/
structure Binding where
  exchange : String
  routing_key : String
  nowait : Bool
  active : Bool
deriving DecidableEq, Repr

/-- Rust `Binding::new`. -/
def Binding.new (exchange routing_key : String) (nowait : Bool) : Binding :=
  { exchange := exchange, routing_key := routing_key, nowait := nowait,
    active := false }

/-- The `Queue` struct of the legacy model (`queue.rs` is outside the
extracted sources).  Modelled from the spec: `{name, flags, message_count,
consumer_count, created, bindings, consumers}` (§3), matching the fields
`async/src/api.rs` reads and writes. -/
structure Queue where
  name : String
  passive : Bool
  durable : Bool
  exclusive : Bool
  auto_delete : Bool
  message_count : Nat
  consumer_count : Nat
  created : Bool
  bindings : List ((String × String) × Binding)
  consumers : List (String × LegacyConsumer)
deriving DecidableEq, Repr

/-- Rust `Queue::new(name, passive, durable, exclusive, auto_delete)`. -/
def Queue.new (name : String) (passive durable exclusive auto_delete : Bool) : Queue :=
  { name := name, passive := passive, durable := durable,
    exclusive := exclusive, auto_delete := auto_delete,
    message_count := 0, consumer_count := 0, created := false,
    bindings := [], consumers := [] }

/-- The per-channel record (`channel.rs` is outside the extracted sources).
Modelled from the spec: `{state, send_flow, receive_flow, awaiting, queues,
prefetch_size, prefetch_count}` (§3), matching the fields
`async/src/api.rs` reads and writes. -/
structure Channel where
  state : ChannelState
  send_flow : Bool
  receive_flow : Bool
  awaiting : List Answer
  queues : List (String × Queue)
  prefetch_size : Nat
  prefetch_count : Nat
deriving DecidableEq, Repr

/-- A freshly created channel: state `Initial`, nothing awaiting. -/
def Channel.new : Channel :=
  { state := ChannelState.initial, send_flow := true, receive_flow := true,
    awaiting := [], queues := [], prefetch_size := 0, prefetch_count := 0 }

/-- The `Connection` record (`connection.rs` is outside the extracted
sources).  Modelled from the spec: the channel map, the monotonic
request-id counter, the `finished` set of completed request ids, the
connection-level prefetch written by `BasicQosOk(global=true)`, and the
outbound method frames produced by `send_method_frame`. -/
structure Connection where
  channels : List (Nat × Channel)
  request_index : Nat
  finished_reqs : List RequestId
  prefetch_size : Nat
  prefetch_count : Nat
  sent : List (Nat × Method)
deriving DecidableEq, Repr

namespace Connection

/-- Rust `self.channels.contains_key(&id)`. -/
def contains_channel (conn : Connection) (id : Nat) : Bool :=
  (conn.channels.lookup id).isSome

/-- Replace channel `id`'s record by `f` of it (the `channels.get_mut`
pattern: a no-op when the channel is absent). -/
def update_channel (conn : Connection) (id : Nat) (f : Channel → Channel) : Connection :=
  { conn with channels :=
      conn.channels.map (fun p => if p.1 == id then (p.1, f p.2) else p) }

/-- Rust `Connection::check_state` (defined outside the extracted sources).
Modelled from the spec: compares the channel's state against the given one,
`None` when the channel is absent. -/
def check_state (conn : Connection) (id : Nat) (state : ChannelState) : Option Bool :=
  (conn.channels.lookup id).map (fun c => c.state == state)

/-- Rust `Connection::set_channel_state` (defined outside the extracted
sources).  Modelled from the spec: overwrite the channel's lifecycle
state. -/
def set_channel_state (conn : Connection) (id : Nat) (state : ChannelState) : Connection :=
  conn.update_channel id (fun c => { c with state := state })

/-- Rust `Connection::is_connected` (defined outside the extracted sources).
Modelled from the spec: "Verifies the channel is in `Connected`" — true
exactly when the channel exists and its state is `Connected`. -/
def is_connected (conn : Connection) (id : Nat) : Bool :=
  ((conn.channels.lookup id).map (fun c => c.state == ChannelState.connected)).getD false

/-- Rust `Connection::get_next_answer` (defined outside the extracted sources).
Modelled from the spec: "Pop the head of `awaiting`" — remove and return
the front of the channel's answer queue. -/
def get_next_answer (conn : Connection) (id : Nat) : Option Answer × Connection :=
  match conn.channels.lookup id with
  | some c =>
    match c.awaiting with
    | a :: rest => (some a, conn.update_channel id (fun ch => { ch with awaiting := rest }))
    | [] => (none, conn)
  | none => (none, conn)

/-- Rust `Connection::next_request_id` (defined outside the extracted sources).
Modelled from the spec: request ids are "monotonically increasing, never
reused within a connection". -/
def next_request_id (conn : Connection) : RequestId × Connection :=
  (conn.request_index, { conn with request_index := conn.request_index + 1 })

/-- Rust `Connection::send_method_frame` (defined outside the extracted
sources).  Modelled from the spec: encodes the method frame and enqueues it
into the frame queue — recorded here as the outbound `sent` log. -/
def send_method_frame (conn : Connection) (id : Nat) (m : Method) : Connection :=
  { conn with sent := conn.sent ++ [(id, m)] }

/-- Rust `Connection::push_back_answer` (defined outside the extracted sources).
Modelled from the spec: registers the expected reply at the back of the
channel's `awaiting` queue (matching the inline `c.awaiting.push_back`
pattern of `async/src/api.rs`). -/
def push_back_answer (conn : Connection) (id : Nat) (a : Answer) : Connection :=
  conn.update_channel id (fun c => { c with awaiting := c.awaiting ++ [a] })

/-- Rust `HashSet::insert` on `finished_reqs`. -/
def finish_request (conn : Connection) (rid : RequestId) : Connection :=
  if conn.finished_reqs.contains rid then conn
  else { conn with finished_reqs := conn.finished_reqs ++ [rid] }

/-- The state of channel `id`, if present (observer). -/
def state_of (conn : Connection) (id : Nat) : Option ChannelState :=
  (conn.channels.lookup id).map (fun c => c.state)

/-- The awaiting queue of channel `id`, if present (observer). -/
def awaiting_of (conn : Connection) (id : Nat) : Option (List Answer) :=
  (conn.channels.lookup id).map (fun c => c.awaiting)

/-- Insert (or replace) a queue in a channel's queue map
(`c.queues.insert(name, q)`). -/
def insert_queue (queues : List (String × Queue)) (name : String) (q : Queue) :
    List (String × Queue) :=
  if (queues.lookup name).isSome then
    queues.map (fun p => if p.1 == name then (p.1, q) else p)
  else queues ++ [(name, q)]

/-- Rust `Connection::channel_open` from `async/src/api.rs`: requires the
channel to exist and to be in `Initial` (else the channel transitions to
`Error` and the call fails with `InvalidState`); sends `channel.open` and
registers `AwaitingChannelOpenOk`. -/
def channel_open (conn : Connection) (id : Nat) (out_of_band : String) :
    Except Error RequestId × Connection :=
  if ¬ conn.contains_channel id then
    (Except.error Error.invalidChannel, conn)
  else if ¬ ((conn.check_state id ChannelState.initial).getD false) then
    (Except.error Error.invalidState, conn.set_channel_state id ChannelState.error)
  else
    let conn := conn.send_method_frame id (Method.channelOpen out_of_band)
    let (request_id, conn) := conn.next_request_id
    let conn := conn.push_back_answer id (Answer.awaitingChannelOpenOk request_id)
    (Except.ok request_id, conn)

/-- Rust `Connection::channel_flow` from `async/src/api.rs`. -/
def channel_flow (conn : Connection) (id : Nat) (active : Bool) :
    Except Error RequestId × Connection :=
  if ¬ conn.contains_channel id then
    (Except.error Error.invalidChannel, conn)
  else if ¬ conn.is_connected id then
    (Except.error Error.invalidState, conn)
  else
    let conn := conn.send_method_frame id (Method.channelFlow active)
    let (request_id, conn) := conn.next_request_id
    let conn := conn.push_back_answer id (Answer.awaitingChannelFlowOk request_id)
    (Except.ok request_id, conn)

/-- Rust `Connection::channel_close` from `async/src/api.rs`. -/
def channel_close (conn : Connection) (id : Nat) (reply_code : Nat)
    (reply_text : String) (class_id : Nat) (method_id : Nat) :
    Except Error RequestId × Connection :=
  if ¬ conn.contains_channel id then
    (Except.error Error.invalidChannel, conn)
  else if ¬ conn.is_connected id then
    (Except.error Error.invalidState, conn)
  else
    let conn := conn.send_method_frame id
      (Method.channelClose reply_code reply_text class_id method_id)
    let (request_id, conn) := conn.next_request_id
    let conn := conn.push_back_answer id (Answer.awaitingChannelCloseOk request_id)
    (Except.ok request_id, conn)

/-- Rust `Connection::channel_close_ok` from `async/src/api.rs`: emits the
`channel.close-ok` method frame.  Its state check calls `is_connected`,
whose body lives outside the extracted sources; modelled from the spec:
"`channel.close_ok` ... accepts `Closed`" — the check passes in
`Connected` and in `Closed`. -/
def channel_close_ok (conn : Connection) (id : Nat) :
    Except Error Unit × Connection :=
  if ¬ conn.contains_channel id then
    (Except.error Error.invalidChannel, conn)
  else if ¬ (((conn.channels.lookup id).map (fun c =>
      c.state == ChannelState.connected || c.state == ChannelState.closed)).getD false) then
    (Except.error Error.invalidState, conn)
  else
    (Except.ok (), conn.send_method_frame id Method.channelCloseOk)

/-- Rust `Connection::receive_channel_close` from `async/src/api.rs`: on a
server-initiated `channel.close` for an existing connected channel, pop the
next answer, set the state to `Closed` and emit `close-ok`. -/
def receive_channel_close (conn : Connection) (id : Nat) :
    Except Error Unit × Connection :=
  if ¬ conn.contains_channel id then
    (Except.error Error.invalidChannel, conn)
  else if ¬ conn.is_connected id then
    (Except.error Error.invalidState, conn)
  else
    let (_, conn) := conn.get_next_answer id
    let conn := conn.set_channel_state id ChannelState.closed
    channel_close_ok conn id

/-- Rust `Connection::receive_channel_close_ok` from `async/src/api.rs`. -/
def receive_channel_close_ok (conn : Connection) (id : Nat) :
    Except Error Unit × Connection :=
  if ¬ conn.contains_channel id then
    (Except.error Error.invalidChannel, conn)
  else if ¬ conn.is_connected id then
    (Except.error Error.invalidState, conn)
  else
    match conn.get_next_answer id with
    | (some (Answer.awaitingChannelCloseOk request_id), conn) =>
      let conn := conn.finish_request request_id
      (Except.ok (), conn.set_channel_state id ChannelState.closed)
    | (_, conn) =>
      (Except.error Error.unexpectedAnswer, conn.set_channel_state id ChannelState.error)

/-- Rust `Connection::queue_declare` from `async/src/api.rs`: sends
`queue.declare`, inserts a fresh (not yet `created`) `Queue` into the
channel model and registers `AwaitingQueueDeclareOk`. -/
def queue_declare (conn : Connection) (id : Nat) (ticket : Nat) (queue : String)
    (passive durable exclusive auto_delete nowait : Bool) (arguments : FieldTable) :
    Except Error RequestId × Connection :=
  if ¬ conn.contains_channel id then
    (Except.error Error.invalidChannel, conn)
  else if ¬ conn.is_connected id then
    (Except.error Error.invalidState, conn)
  else
    let conn := conn.send_method_frame id
      (Method.queueDeclare ticket queue passive durable exclusive auto_delete nowait arguments)
    let (request_id, conn) := conn.next_request_id
    let conn := conn.update_channel id (fun c =>
      let q := Queue.new queue passive durable exclusive auto_delete
      { c with
        queues := insert_queue c.queues queue q,
        awaiting := c.awaiting ++ [Answer.awaitingQueueDeclareOk request_id] })
    (Except.ok request_id, conn)

/-- Rust `Connection::receive_queue_declare_ok` from `async/src/api.rs`: pop the
next answer; on the exact expected variant record the request id as
finished and update the declared queue's counts and `created` flag; else
transition the channel to `Error` and fail with `UnexpectedAnswer`. -/
def receive_queue_declare_ok (conn : Connection) (id : Nat) (queue : String)
    (message_count consumer_count : Nat) :
    Except Error Unit × Connection :=
  if ¬ conn.contains_channel id then
    (Except.error Error.invalidChannel, conn)
  else if ¬ conn.is_connected id then
    (Except.error Error.invalidState, conn)
  else
    match conn.get_next_answer id with
    | (some (Answer.awaitingQueueDeclareOk request_id), conn) =>
      let conn := conn.finish_request request_id
      let conn := conn.update_channel id (fun c =>
        { c with queues := c.queues.map (fun p =>
            if p.1 == queue then
              (p.1, { p.2 with
                message_count := message_count,
                consumer_count := consumer_count,
                created := true })
            else p) })
      (Except.ok (), conn)
    | (_, conn) =>
      (Except.error Error.unexpectedAnswer, conn.set_channel_state id ChannelState.error)

/-- Rust `Connection::queue_bind` from `async/src/api.rs`. -/
def queue_bind (conn : Connection) (id : Nat) (ticket : Nat)
    (queue exchange routing_key : String) (nowait : Bool) (arguments : FieldTable) :
    Except Error RequestId × Connection :=
  if ¬ conn.contains_channel id then
    (Except.error Error.invalidChannel, conn)
  else if ¬ conn.is_connected id then
    (Except.error Error.invalidState, conn)
  else
    let conn := conn.send_method_frame id
      (Method.queueBind ticket queue exchange routing_key nowait arguments)
    let (request_id, conn) := conn.next_request_id
    let conn := conn.update_channel id (fun c =>
      let c := { c with awaiting :=
        c.awaiting ++ [Answer.awaitingQueueBindOk request_id exchange routing_key] }
      { c with queues := c.queues.map (fun p =>
          if p.1 == queue then
            (p.1, { p.2 with bindings :=
              p.2.bindings ++ [((exchange, routing_key), Binding.new exchange routing_key nowait)] })
          else p) })
    (Except.ok request_id, conn)

/-- Rust `Connection::basic_qos` from `async/src/api.rs`. -/
def basic_qos (conn : Connection) (id : Nat)
    (prefetch_size prefetch_count : Nat) (global : Bool) :
    Except Error RequestId × Connection :=
  if ¬ conn.contains_channel id then
    (Except.error Error.invalidChannel, conn)
  else if ¬ conn.is_connected id then
    (Except.error Error.invalidState, conn)
  else
    let conn := conn.send_method_frame id
      (Method.basicQos prefetch_size prefetch_count global)
    let (request_id, conn) := conn.next_request_id
    let conn := conn.push_back_answer id
      (Answer.awaitingBasicQosOk request_id prefetch_size prefetch_count global)
    (Except.ok request_id, conn)

/-- Rust `Connection::basic_cancel` from `async/src/api.rs`. -/
def basic_cancel (conn : Connection) (id : Nat) (consumer_tag : String)
    (nowait : Bool) : Except Error RequestId × Connection :=
  if ¬ conn.contains_channel id then
    (Except.error Error.invalidChannel, conn)
  else if ¬ conn.is_connected id then
    (Except.error Error.invalidState, conn)
  else
    let conn := conn.send_method_frame id (Method.basicCancel consumer_tag nowait)
    let (request_id, conn) := conn.next_request_id
    let conn := conn.push_back_answer id (Answer.awaitingBasicCancelOk request_id)
    (Except.ok request_id, conn)

/-- Rust `Connection::receive_basic_cancel_ok` from `async/src/api.rs`: pop the
next answer; on `AwaitingBasicCancelOk` the function returns `Ok` — note
that the source inserts nothing into `finished_reqs` here, and its
`c.queues.iter_mut().map(..)` consumer-removal expression builds a lazy
iterator that is never consumed, so neither side effect takes place. -/
def receive_basic_cancel_ok (conn : Connection) (id : Nat)
    (consumer_tag : String) : Except Error Unit × Connection :=
  if ¬ conn.contains_channel id then
    (Except.error Error.invalidChannel, conn)
  else if ¬ conn.is_connected id then
    (Except.error Error.invalidState, conn)
  else
    match conn.get_next_answer id with
    | (some (Answer.awaitingBasicCancelOk _), conn) =>
      (Except.ok (), conn)
    | (_, conn) =>
      (Except.error Error.unexpectedAnswer, conn.set_channel_state id ChannelState.error)

/-- Rust `Connection::basic_publish` from `async/src/api.rs`: sends the
`basic.publish` method frame; no expected reply is registered. -/
def basic_publish (conn : Connection) (id : Nat) (ticket : Nat)
    (exchange routing_key : String) (mandatory immediate : Bool) :
    Except Error Unit × Connection :=
  if ¬ conn.contains_channel id then
    (Except.error Error.invalidChannel, conn)
  else if ¬ conn.is_connected id then
    (Except.error Error.invalidState, conn)
  else
    (Except.ok (),
     conn.send_method_frame id
       (Method.basicPublish ticket exchange routing_key mandatory immediate))

end Connection

/-! ## Theorems -/

/-- C10: `Frames::has_pending` is true exactly when at least one of the four
frame lanes is non-empty; a queue whose lanes are all empty reports no
pending work regardless of its registered expected replies. -/
theorem has_pending_iff (s : Inner) :
    (s.has_pending = true ↔
      (s.retry_frames ≠ [] ∨ s.publish_frames ≠ [] ∨
       s.frames ≠ [] ∨ s.low_prio_frames ≠ [])) ∧
    (∀ replies, (Inner.mk [] [] [] [] replies).has_pending = false) := by
  constructor
  · rcases s with ⟨p, r, f, l, er⟩
    rw [Inner.has_pending]
    cases p <;> cases r <;> cases f <;> cases l <;> simp
  · intro replies
    rfl

/-- C6: `push_frames` enqueues every frame but the last with no resolver and
the last with the batch's resolver (so the promise resolves exactly when the
last frame is written), and resolves the promise immediately with success on
an empty batch. -/
theorem push_frames_resolver_placement (s : Inner) (fs : List AMQPFrame) (r : Nat) :
    (fs = [] → s.push_frames fs r = ([ResolverEvent.ok r], s)) ∧
    (fs ≠ [] →
      (s.push_frames fs r).1 = [] ∧
      ∃ last_frame, fs.getLast? = some last_frame ∧
        (s.push_frames fs r).2 = { s with low_prio_frames :=
          s.low_prio_frames ++ fs.dropLast.map (fun f => (f, none)) ++
            [(last_frame, some r)] }) := by
  constructor
  · rintro rfl
    rfl
  · intro h
    obtain ⟨last_frame, hlast⟩ :=
      Option.isSome_iff_exists.mp (List.getLast?_isSome.mpr h)
    refine ⟨?_, last_frame, hlast, ?_⟩ <;> simp [Inner.push_frames, hlast]

/-- C7: `drop_pending(error)` fails every pending resolver of all four
lanes with the given error, cancels every registered expected reply with it,
and leaves all four lanes and the expected-reply map empty. -/
theorem drop_pending_spec (s : Inner) (e : Error) :
    ((s.drop_pending e).2.retry_frames = [] ∧
     (s.drop_pending e).2.publish_frames = [] ∧
     (s.drop_pending e).2.frames = [] ∧
     (s.drop_pending e).2.low_prio_frames = [] ∧
     (s.drop_pending e).2.expected_replies = []) ∧
    (s.drop_pending e).1.1 =
      (s.retry_frames ++ s.publish_frames ++ s.frames ++ s.low_prio_frames).filterMap
        (fun en => en.2.map (fun r => ResolverEvent.err r e)) ∧
    (s.drop_pending e).1.2 =
      ((s.expected_replies.map Prod.snd).flatten).map
        (fun rep => { cancel := rep.cancel, error := e }) := by
  refine ⟨⟨rfl, rfl, rfl, rfl, rfl⟩, ?_, ?_⟩
  · simp [Inner.drop_pending, Inner.drop_pending_frames, List.filterMap_append]
  · simp [Inner.drop_pending, Inner.cancel_expected_replies, Function.comp_def]

/-- The `while let` drain of `set_delegate` spawns the delegate on each
queued delivery, in queue order. -/
theorem flush_to_delegate_eq_map (d : Nat) (l : List DeliveryResult) :
    ConsumerInner.flush_to_delegate d l = l.map (SpawnEvent.newDelivery d) := by
  induction l with
  | nil => rfl
  | cons hd tl ih => simp [ConsumerInner.flush_to_delegate, ih]

/-- C8: installing a delegate forwards every delivery already queued in the
consumer's MPSC channel to the delegate (as spawned tasks, in order) before
the delegate is installed; the queue is left empty and nothing else of the
consumer state changes, so no delivery is dropped on hand-off. -/
theorem set_delegate_flushes (s : ConsumerInner) (d : Nat) :
    (s.set_delegate d).delegate = some d ∧
    (s.set_delegate d).deliveries = [] ∧
    (s.set_delegate d).spawned =
      s.spawned ++ s.deliveries.map (SpawnEvent.newDelivery d) ∧
    (s.set_delegate d).current_message = s.current_message ∧
    (s.set_delegate d).task = s.task := by
  refine ⟨rfl, rfl, ?_, rfl, rfl⟩
  simp [ConsumerInner.set_delegate, flush_to_delegate_eq_map]

/-- C9: no partial delivery is surfaced.  `new_delivery_complete` publishes
a delivery to the subscriber path (delegate spawn or MPSC queue) only when
`current_message` is `Some`, taking it whole; when `current_message` is
`None`, `new_delivery_complete`, `set_delivery_properties` and
`receive_delivery_content` leave the consumer state unchanged and send
nothing. -/
theorem no_partial_delivery (s : ConsumerInner) (channel : Nat)
    (props : BasicProperties) (payload : List Nat) :
    (s.current_message = none →
      s.new_delivery_complete channel = s ∧
      s.set_delivery_properties props = s ∧
      s.receive_delivery_content payload = s) ∧
    (∀ d, s.current_message = some d →
      (s.new_delivery_complete channel).current_message = none ∧
      ((∃ del, s.delegate = some del ∧
          (s.new_delivery_complete channel).deliveries = s.deliveries ∧
          (s.new_delivery_complete channel).spawned = s.spawned ++
            [SpawnEvent.newDelivery del (DeliveryResult.ok (some (channel, d)))]) ∨
       (s.delegate = none ∧
          (s.new_delivery_complete channel).spawned = s.spawned ∧
          (s.new_delivery_complete channel).deliveries = s.deliveries ++
            [DeliveryResult.ok (some (channel, d))]))) := by
  constructor
  · intro h
    refine ⟨?_, ?_, ?_⟩ <;>
      simp [ConsumerInner.new_delivery_complete, ConsumerInner.set_delivery_properties,
        ConsumerInner.receive_delivery_content, h]
  · intro d h
    rcases hdel : s.delegate with _ | del <;>
      rcases htask : s.task with _ | w <;>
      simp [ConsumerInner.new_delivery_complete, ConsumerInner.new_delivery,
        h, hdel, htask]

/-- C5: the frame-queue pop policy.  `pop(flow)` returns the front of the
retry lane if non-empty, else the front of the publish-sequence lane, else
the front of the normal lane; only when those three are empty and `flow` is
true may a low-prio frame be returned — migrating a detected publish run
(following content header plus consecutive bodies) into publish-sequence —
and when `flow` is false no low-prio frame is ever returned. -/
theorem pop_policy (s : Inner) (flow : Bool) :
    (∀ e rest, s.retry_frames = e :: rest →
      s.pop flow = (some e, { s with retry_frames := rest })) ∧
    (s.retry_frames = [] → ∀ e rest, s.publish_frames = e :: rest →
      s.pop flow = (some e, { s with publish_frames := rest })) ∧
    (s.retry_frames = [] → s.publish_frames = [] → ∀ e rest, s.frames = e :: rest →
      s.pop flow = (some e, { s with frames := rest })) ∧
    (s.retry_frames = [] → s.publish_frames = [] → s.frames = [] → flow = false →
      s.pop flow = (none, s)) ∧
    (s.retry_frames = [] → s.publish_frames = [] → s.frames = [] → flow = true →
      (s.pop flow).1 = s.low_prio_frames.head?) ∧
    (s.retry_frames = [] → s.publish_frames = [] → s.frames = [] → flow = true →
      ∀ e hdr rest, s.low_prio_frames = e :: hdr :: rest → hdr.1.is_header = true →
        s.pop flow = (some e,
          { s with
            low_prio_frames := (Inner.drain_publish_bodies rest).2,
            publish_frames := hdr :: (Inner.drain_publish_bodies rest).1 })) := by
  refine ⟨?_, ?_, ?_, ?_, ?_, ?_⟩
  · intro e rest h
    simp [Inner.pop, h]
  · intro hr e rest h
    simp [Inner.pop, hr, h]
  · intro hr hp e rest h
    simp [Inner.pop, hr, hp, h]
  · intro hr hp hf hflow
    simp [Inner.pop, hr, hp, hf, hflow]
  · intro hr hp hf hflow
    rcases hl : s.low_prio_frames with _ | ⟨e, rest⟩
    · simp [Inner.pop, hr, hp, hf, hflow, hl]
    · rcases rest with _ | ⟨e2, rest2⟩
      · simp [Inner.pop, hr, hp, hf, hflow, hl]
      · by_cases hh : e2.1.is_header = true <;>
          simp [Inner.pop, hr, hp, hf, hflow, hl, hh]
  · intro hr hp hf hflow e hdr rest hl hh
    simp [Inner.pop, hr, hp, hf, hflow, hl, hh]

/-- C1: scheduler publish atomicity.  Second part: a pop that moves a
content header into the (previously empty) publish-sequence lane can only
happen with the retry and normal lanes empty, and it leaves them empty.
First part: from any such state, the following pops return exactly the
publish-sequence frames, in order, until that lane is empty — no frame of
the retry, normal or low-prio lane is returned meanwhile and the low-prio
lane is untouched. -/
theorem scheduler_publish_atomicity :
    (∀ (s : Inner) (flow : Bool) (k : Nat),
      s.retry_frames = [] → s.frames = [] → k ≤ s.publish_frames.length →
      (s.drainN flow k).1 = (s.publish_frames.take k).map some ∧
      (s.drainN flow k).2 = { s with publish_frames := s.publish_frames.drop k }) ∧
    (∀ (s : Inner) (flow : Bool),
      s.publish_frames = [] → (s.pop flow).2.publish_frames ≠ [] →
      s.retry_frames = [] ∧ s.frames = [] ∧
      (s.pop flow).2.retry_frames = [] ∧ (s.pop flow).2.frames = []) := by
  constructor
  · intro s flow k
    induction k generalizing s with
    | zero =>
      intro hr hf _
      refine ⟨rfl, ?_⟩
      simp [Inner.drainN]
    | succ n ih =>
      intro hr hf hk
      rcases hp : s.publish_frames with _ | ⟨e, rest⟩
      · rw [hp] at hk
        exact absurd hk (by simp)
      · have hpop : s.pop flow = (some e, { s with publish_frames := rest }) := by
          simp [Inner.pop, hr, hp]
        have hk' : n ≤ rest.length := by
          rw [hp] at hk
          simpa using hk
        have := ih { s with publish_frames := rest } hr hf hk'
        rw [Inner.drainN, hpop]
        simp only [hp]
        exact ⟨by simp [this.1], by simpa using this.2⟩
  · intro s flow hp hne
    rcases hr : s.retry_frames with _ | ⟨e, rest⟩
    · rcases hf : s.frames with _ | ⟨e, rest⟩
      · have key : (s.pop flow).2.retry_frames = [] ∧ (s.pop flow).2.frames = [] := by
          cases flow
          · exact absurd (by simp [Inner.pop, hr, hp, hf]) hne
          · rcases hl : s.low_prio_frames with _ | ⟨e, rest⟩
            · exact absurd (by simp [Inner.pop, hr, hp, hf, hl]) hne
            · rcases rest with _ | ⟨e2, rest2⟩
              · exact absurd (by simp [Inner.pop, hr, hp, hf, hl]) hne
              · by_cases hh : e2.1.is_header = true
                · constructor <;> simp [Inner.pop, hr, hp, hf, hl, hh]
                · exact absurd (by simp [Inner.pop, hr, hp, hf, hl, hh]) hne
        exact ⟨rfl, rfl, key.1, key.2⟩
      · exact absurd (by simp [Inner.pop, hr, hp, hf]) hne
    · exact absurd (by simp [Inner.pop, hr, hp]) hne

/-- Looking up the updated channel id after an `update_channel`-style map
over the channel association list yields the updated record. -/
theorem lookup_map_update (l : List (Nat × Channel)) (id : Nat) (f : Channel → Channel) :
    (l.map (fun p => if p.1 == id then (p.1, f p.2) else p)).lookup id =
      (l.lookup id).map f := by
  induction l with
  | nil => rfl
  | cons hd tl ih =>
    rcases hd with ⟨k, c⟩
    simp only [List.map_cons]
    by_cases h : k = id
    · subst h
      rw [if_pos (by simp)]
      simp [List.lookup]
    · rw [if_neg (by simp [h])]
      have h2 : (id == k) = false := by simpa using Ne.symm h
      simp [List.lookup, h2]
      simpa using ih

/-- Helper: `update_channel` seen through `lookup` on the updated id. -/
theorem update_channel_lookup (conn : Connection) (id : Nat) (f : Channel → Channel) :
    (conn.update_channel id f).channels.lookup id = (conn.channels.lookup id).map f :=
  lookup_map_update conn.channels id f

/-- A connection with a single channel `1` in state `Initial`. -/
def connA : Connection :=
  { channels := [(1, Channel.new)], request_index := 0, finished_reqs := [],
    prefetch_size := 0, prefetch_count := 0, sent := [] }

/-- C2 counterexample: `queue_declare` on an existing channel whose state is
not `Connected` (here `Initial`) fails with `InvalidState` but does NOT
transition the channel to `Error` — the state is left untouched, refuting
the claimed transition. -/
theorem queue_declare_no_error_transition_cex :
    (Connection.queue_declare connA 1 0 "q" false false false false false {}).1 =
      Except.error Error.invalidState ∧
    Connection.state_of
      (Connection.queue_declare connA 1 0 "q" false false false false false {}).2 1 =
      some ChannelState.initial ∧
    Connection.state_of
      (Connection.queue_declare connA 1 0 "q" false false false false false {}).2 1 ≠
      some ChannelState.error := by
  refine ⟨rfl, rfl, ?_⟩
  decide

/-- C2 (amended): every embedded synchronous operation on an unknown
channel id fails with `InvalidChannel` leaving the connection unchanged; on
an existing channel whose state is not `Connected` the operations gated on
`Connected` fail with `InvalidState` leaving the connection (hence the
channel state) unchanged; `channel.open`, which requires `Initial`, is the
one operation that transitions the channel to `Error` when its state check
fails. -/
theorem sync_op_state_gate (conn : Connection) (id : Nat)
    (ticket n1 n2 n3 : Nat) (queue exchange routing_key tag txt : String)
    (active nowait mandatory pb pd pe pa pn : Bool) (args : FieldTable) :
    (conn.channels.lookup id = none →
      Connection.channel_open conn id txt = (Except.error Error.invalidChannel, conn) ∧
      Connection.channel_flow conn id active = (Except.error Error.invalidChannel, conn) ∧
      Connection.channel_close conn id n1 txt n2 n3 = (Except.error Error.invalidChannel, conn) ∧
      Connection.channel_close_ok conn id = (Except.error Error.invalidChannel, conn) ∧
      Connection.queue_declare conn id ticket queue pb pd pe pa pn args =
        (Except.error Error.invalidChannel, conn) ∧
      Connection.queue_bind conn id ticket queue exchange routing_key nowait args =
        (Except.error Error.invalidChannel, conn) ∧
      Connection.basic_qos conn id n1 n2 active = (Except.error Error.invalidChannel, conn) ∧
      Connection.basic_cancel conn id tag nowait = (Except.error Error.invalidChannel, conn) ∧
      Connection.basic_publish conn id ticket exchange routing_key mandatory nowait =
        (Except.error Error.invalidChannel, conn)) ∧
    (∀ c, conn.channels.lookup id = some c → c.state ≠ ChannelState.connected →
      Connection.channel_flow conn id active = (Except.error Error.invalidState, conn) ∧
      Connection.channel_close conn id n1 txt n2 n3 = (Except.error Error.invalidState, conn) ∧
      Connection.queue_declare conn id ticket queue pb pd pe pa pn args =
        (Except.error Error.invalidState, conn) ∧
      Connection.queue_bind conn id ticket queue exchange routing_key nowait args =
        (Except.error Error.invalidState, conn) ∧
      Connection.basic_qos conn id n1 n2 active = (Except.error Error.invalidState, conn) ∧
      Connection.basic_cancel conn id tag nowait = (Except.error Error.invalidState, conn) ∧
      Connection.basic_publish conn id ticket exchange routing_key mandatory nowait =
        (Except.error Error.invalidState, conn)) ∧
    (∀ c, conn.channels.lookup id = some c → c.state ≠ ChannelState.initial →
      Connection.channel_open conn id txt =
        (Except.error Error.invalidState, conn.set_channel_state id ChannelState.error)) := by
  refine ⟨?_, ?_, ?_⟩
  · intro h
    refine ⟨?_, ?_, ?_, ?_, ?_, ?_, ?_, ?_, ?_⟩ <;>
      simp [Connection.channel_open, Connection.channel_flow, Connection.channel_close,
        Connection.channel_close_ok, Connection.queue_declare, Connection.queue_bind,
        Connection.basic_qos, Connection.basic_cancel, Connection.basic_publish,
        Connection.contains_channel, h]
  · intro c h hne
    have hb : (c.state == ChannelState.connected) = false := by simpa using hne
    refine ⟨?_, ?_, ?_, ?_, ?_, ?_, ?_⟩ <;>
      simp [Connection.channel_flow, Connection.channel_close,
        Connection.queue_declare, Connection.queue_bind, Connection.basic_qos,
        Connection.basic_cancel, Connection.basic_publish,
        Connection.contains_channel, Connection.is_connected, h, hb]
  · intro c h hne
    have hb : (c.state == ChannelState.initial) = false := by simpa using hne
    simp [Connection.channel_open, Connection.contains_channel,
      Connection.check_state, h, hb]

/-- Witness for C2's amended statement at concrete inputs: channel `1` of
`connA` exists in state `Initial` (not `Connected`), channel `2` does not
exist. -/
theorem sync_op_state_gate_witness :
    Connection.queue_declare connA 1 0 "q" false false false false false {} =
      (Except.error Error.invalidState, connA) ∧
    Connection.channel_open connA 2 "" = (Except.error Error.invalidChannel, connA) := by
  constructor
  · exact ((sync_op_state_gate connA 1 0 0 0 0 "q" "" "" "" "" false false false
      false false false false false {}).2.1 Channel.new rfl (by decide)).2.2.1
  · exact ((sync_op_state_gate connA 2 0 0 0 0 "q" "" "" "" "" false false false
      false false false false false {}).1 rfl).1

/-- C3 (amended): on a server-initiated `channel.close` for an existing
connected channel, the implementation pops exactly one answer off the
channel's awaiting queue (the rest of the queue survives and no promise is
failed with the close reason), emits the `channel.close-ok` method frame,
and leaves the channel in state `Closed`. -/
theorem receive_channel_close_behavior (conn : Connection) (id : Nat) (c : Channel)
    (h : conn.channels.lookup id = some c) (hs : c.state = ChannelState.connected) :
    (Connection.receive_channel_close conn id).1 = Except.ok () ∧
    Connection.state_of (Connection.receive_channel_close conn id).2 id =
      some ChannelState.closed ∧
    Connection.awaiting_of (Connection.receive_channel_close conn id).2 id =
      some c.awaiting.tail ∧
    (Connection.receive_channel_close conn id).2.sent =
      conn.sent ++ [(id, Method.channelCloseOk)] ∧
    (Connection.receive_channel_close conn id).2.finished_reqs = conn.finished_reqs := by
  have hcon : conn.contains_channel id = true := by
    simp [Connection.contains_channel, h]
  have hic : conn.is_connected id = true := by
    simp [Connection.is_connected, h, hs]
  rcases hA : c.awaiting with _ | ⟨a, rest⟩
  · have hget : conn.get_next_answer id = (none, conn) := by
      simp [Connection.get_next_answer, h, hA]
    have hlook2 : (conn.set_channel_state id ChannelState.closed).channels.lookup id =
        some { c with state := ChannelState.closed } := by
      simp [Connection.set_channel_state, update_channel_lookup, h]
    have hcon2 : (conn.set_channel_state id ChannelState.closed).contains_channel id = true := by
      simp [Connection.contains_channel, hlook2]
    have hfinal : Connection.receive_channel_close conn id =
        (Except.ok (),
         (conn.set_channel_state id ChannelState.closed).send_method_frame id
           Method.channelCloseOk) := by
      simp [Connection.receive_channel_close, hcon, hic, hget,
        Connection.channel_close_ok, hcon2, hlook2]
    rw [hfinal]
    refine ⟨rfl, ?_, ?_, ?_, ?_⟩
    · simp [Connection.state_of, Connection.send_method_frame, hlook2]
    · simp [Connection.awaiting_of, Connection.send_method_frame, hlook2, hA]
    · simp [Connection.send_method_frame, Connection.set_channel_state,
        Connection.update_channel]
    · simp [Connection.send_method_frame, Connection.set_channel_state,
        Connection.update_channel]
  · have hget : conn.get_next_answer id =
        (some a, conn.update_channel id (fun ch => { ch with awaiting := rest })) := by
      simp [Connection.get_next_answer, h, hA]
    have hlook1 :
        (conn.update_channel id (fun ch => { ch with awaiting := rest })).channels.lookup id =
          some { c with awaiting := rest } := by
      simp [update_channel_lookup, h]
    have hlook2 :
        ((conn.update_channel id (fun ch => { ch with awaiting := rest })).set_channel_state
            id ChannelState.closed).channels.lookup id =
          some { c with awaiting := rest, state := ChannelState.closed } := by
      simp [Connection.set_channel_state, update_channel_lookup, hlook1]
    have hcon2 :
        ((conn.update_channel id (fun ch => { ch with awaiting := rest })).set_channel_state
            id ChannelState.closed).contains_channel id = true := by
      simp [Connection.contains_channel, hlook2]
    have hfinal : Connection.receive_channel_close conn id =
        (Except.ok (),
         ((conn.update_channel id (fun ch => { ch with awaiting := rest })).set_channel_state
             id ChannelState.closed).send_method_frame id Method.channelCloseOk) := by
      simp [Connection.receive_channel_close, hcon, hic, hget,
        Connection.channel_close_ok, hcon2, hlook2]
    rw [hfinal]
    refine ⟨rfl, ?_, ?_, ?_, ?_⟩
    · simp [Connection.state_of, Connection.send_method_frame, hlook2]
    · simp [Connection.awaiting_of, Connection.send_method_frame, hlook2]
    · simp [Connection.send_method_frame, Connection.set_channel_state,
        Connection.update_channel]
    · simp [Connection.send_method_frame, Connection.set_channel_state,
        Connection.update_channel]

/-- The channel used by the C3 scenario: connected, with two answers
pending. -/
def chanB : Channel :=
  { state := ChannelState.connected, send_flow := true, receive_flow := true,
    awaiting := [Answer.awaitingChannelCloseOk 7, Answer.awaitingQueueDeclareOk 99],
    queues := [], prefetch_size := 0, prefetch_count := 0 }

/-- A connection with a single connected channel `1` holding two pending
answers. -/
def connB : Connection :=
  { channels := [(1, chanB)], request_index := 0, finished_reqs := [],
    prefetch_size := 0, prefetch_count := 0, sent := [] }

/-- C3 counterexample: a server-initiated `channel.close` on a connected
channel with two pending answers leaves one answer still in the awaiting
queue — the queue is not drained as the claim states. -/
theorem receive_channel_close_no_drain_cex :
    Connection.awaiting_of (Connection.receive_channel_close connB 1).2 1 =
      some [Answer.awaitingQueueDeclareOk 99] ∧
    Connection.awaiting_of (Connection.receive_channel_close connB 1).2 1 ≠
      some [] := by
  refine ⟨rfl, ?_⟩
  decide

/-- Witness for C3's amended statement on the concrete connection
`connB`. -/
theorem receive_channel_close_behavior_witness :
    (Connection.receive_channel_close connB 1).1 = Except.ok () ∧
    Connection.state_of (Connection.receive_channel_close connB 1).2 1 =
      some ChannelState.closed ∧
    (Connection.receive_channel_close connB 1).2.sent =
      [(1, Method.channelCloseOk)] := by
  have hth := receive_channel_close_behavior connB 1 chanB rfl rfl
  exact ⟨hth.1, hth.2.1, hth.2.2.2.1⟩

/-- The consumer registered on queue `q` in the C4 scenario. -/
def consumerC : LegacyConsumer :=
  { tag := "ctag", no_local := false, no_ack := false, exclusive := false,
    nowait := false, current_message := none, messages := [] }

/-- The queue holding `consumerC` in the C4 scenario. -/
def queueC : Queue :=
  { Queue.new "q" false false false false with
    created := true, consumers := [("ctag", consumerC)] }

/-- A connection with a connected channel `1` awaiting exactly a
`basic.cancel-ok` with request id `7`, whose queue `q` holds the consumer
`ctag`. -/
def connC : Connection :=
  { channels := [(1,
      { state := ChannelState.connected, send_flow := true, receive_flow := true,
        awaiting := [Answer.awaitingBasicCancelOk 7],
        queues := [("q", queueC)], prefetch_size := 0, prefetch_count := 0 })],
    request_index := 8, finished_reqs := [], prefetch_size := 0,
    prefetch_count := 0, sent := [] }

/-- C4, failing input: on a matching `basic.cancel-ok`, the handler returns
`Ok` but the popped request id `7` is never recorded in the finished set
(every sibling reply handler does record it), and the consumer-removal
side effect never happens either (the source's `iter_mut().map(..)`
iterator is never consumed). -/
theorem receive_basic_cancel_ok_no_finish :
    (Connection.receive_basic_cancel_ok connC 1 "ctag").1 = Except.ok () ∧
    (Connection.receive_basic_cancel_ok connC 1 "ctag").2.finished_reqs = [] ∧
    ((Connection.receive_basic_cancel_ok connC 1 "ctag").2.channels.lookup 1).map
      (fun c => c.queues.lookup "q") = some (some queueC) := by
  refine ⟨rfl, rfl, rfl⟩

/-- Witness data for the scheduler claims: a publish run parked in the
low-prio lane behind nothing, followed by an unrelated method frame. -/
def framesState : Inner :=
  { publish_frames := [], retry_frames := [], frames := [],
    low_prio_frames :=
      [(AMQPFrame.method 1 6040, some 1), (AMQPFrame.header 1 60 3, none),
       (AMQPFrame.body 1 [1, 2, 3], some 2), (AMQPFrame.method 2 5010, some 3)],
    expected_replies := [] }

/-- Witness for C1 on `framesState`: after the pop that migrates the
publish run, the two publish-sequence frames drain back-to-back. -/
theorem scheduler_publish_atomicity_witness :
    ((framesState.pop true).2.drainN true 2).1 =
      [some (AMQPFrame.header 1 60 3, none),
       some (AMQPFrame.body 1 [1, 2, 3], some 2)] ∧
    ((framesState.pop true).2.drainN true 2).2.publish_frames = [] := by
  have hmig := scheduler_publish_atomicity.2 framesState true rfl (by decide)
  have hdrain := scheduler_publish_atomicity.1 (framesState.pop true).2 true 2
    hmig.2.2.1 hmig.2.2.2 (by decide)
  exact ⟨by rw [hdrain.1]; rfl, by rw [hdrain.2]; rfl⟩

/-- Witness for C5: the pop policy at concrete states — a non-empty retry
lane wins, and with the first three lanes empty and flow disabled nothing
is popped while the low-prio lane still holds frames. -/
theorem pop_policy_witness :
    (Inner.mk [(AMQPFrame.heartbeat, none)] [(AMQPFrame.method 9 1, none)] [] [] []).pop false =
      (some (AMQPFrame.method 9 1, none),
       Inner.mk [(AMQPFrame.heartbeat, none)] [] [] [] []) ∧
    framesState.pop false = (none, framesState) := by
  constructor
  · exact (pop_policy (Inner.mk [(AMQPFrame.heartbeat, none)]
      [(AMQPFrame.method 9 1, none)] [] [] []) false).1
      (AMQPFrame.method 9 1, none) [] rfl
  · exact (pop_policy framesState false).2.2.2.1 rfl rfl rfl rfl

/-- Witness for C6 at concrete batches: a two-frame batch parks the first
frame resolver-less and the last with the batch resolver; the empty batch
resolves immediately. -/
theorem push_frames_resolver_placement_witness :
    ((Inner.mk [] [] [] [] []).push_frames [AMQPFrame.heartbeat, AMQPFrame.method 1 2] 5).2.low_prio_frames =
      [(AMQPFrame.heartbeat, none), (AMQPFrame.method 1 2, some 5)] ∧
    (Inner.mk [] [] [] [] []).push_frames [] 5 = ([ResolverEvent.ok 5], Inner.mk [] [] [] [] []) := by
  constructor
  · have hp := (push_frames_resolver_placement (Inner.mk [] [] [] [] [])
      [AMQPFrame.heartbeat, AMQPFrame.method 1 2] 5).2 (by decide)
    obtain ⟨-, last_frame, hlast, hstate⟩ := hp
    rw [hstate]
    cases hlast
    rfl
  · exact (push_frames_resolver_placement (Inner.mk [] [] [] [] []) [] 5).1 rfl

/-- A concrete whole delivery for the C9 witness. -/
def deliveryW : Delivery :=
  { delivery_tag := 1, exchange := "", routing_key := "q",
    redelivered := false, properties := {}, body := [104] }

/-- Witness for C9 on a concrete consumer holding a whole in-progress
delivery and no delegate: completing the delivery clears
`current_message`; on a consumer with no in-progress message, completion
is a no-op. -/
theorem no_partial_delivery_witness :
    ((((ConsumerInner.new "t").start_new_delivery deliveryW).new_delivery_complete 3).current_message
        = none) ∧
    (ConsumerInner.new "t").new_delivery_complete 3 = ConsumerInner.new "t" := by
  constructor
  · exact ((no_partial_delivery ((ConsumerInner.new "t").start_new_delivery deliveryW)
      3 {} []).2 deliveryW rfl).1
  · exact ((no_partial_delivery (ConsumerInner.new "t") 3 {} []).1 rfl).1

end Lapin
